import Mathlib

/-!
# Probe-and-count service: baseline (`src/app`) and resilient (`src/app_resilience`)

Shallow embedding of the two `main.go` programs.  Every handler is a function
from a world (clock, rate gate, circuit breaker, call counters, log) to a reply
and a new world; the things outside the process (URL parsing, the HTTP
transport, the Redis server) are functions of an `Oracle`.
-/

namespace Fmt

/-- Operand of a formatting call (`count` is an `int64`, `body.(string)` a `string`). -/
inductive Arg where
  | int (i : Int)
  | str (s : String)
  deriving DecidableEq, Repr

/-- Decimal rendering of an integer, as `%d` prints it: a minus sign for a
negative number, then the digits of the magnitude, most significant first. -/
def formatInt (i : Int) : List Char :=
  if i < 0 then '-' :: Nat.toDigits 10 i.natAbs else Nat.toDigits 10 i.natAbs

/-- The `type=value` rendering fmt uses inside its error markers. -/
def Arg.typeValue : Arg → List Char
  | .int i => "int64=".toList ++ formatInt i
  | .str s => "string=".toList ++ s.toList

/-- One verb applied to one operand: `%d`/`%v` on an integer, `%s`/`%v` on a
string; anything else is printed the way fmt prints a verb it cannot apply,
`%!c(type=value)`. -/
def fmtVerb (c : Char) (a : Arg) : List Char :=
  match a with
  | .int i =>
    if c = 'd' ∨ c = 'v' then formatInt i
    else '%' :: '!' :: c :: '(' :: (a.typeValue ++ [')'])
  | .str s =>
    if c = 's' ∨ c = 'v' then s.toList
    else '%' :: '!' :: c :: '(' :: (a.typeValue ++ [')'])

/-- The operands left over after the format is exhausted: `%!(EXTRA a, b)`. -/
def extra : List Arg → List Char
  | [] => []
  | a :: rest =>
    "%!(EXTRA ".toList ++ a.typeValue ++
      (rest.map (fun b => ", ".toList ++ b.typeValue)).flatten ++ [')']

/-- The scanning loop of `fmt.Fprintf`/`fmt.Sprintf` on the fragment this
program uses: literal text is copied, `%%` prints a percent sign, a verb takes
the next operand, a verb with no operand left prints `%!c(MISSING)`, a lone
trailing `%` prints `%!(NOVERB)`, unused operands are reported at the end.
Flags, width and precision are not part of the fragment. -/
def doPrintf : List Char → List Arg → List Char
  | [], args => extra args
  | [c], args => if c = '%' then "%!(NOVERB)".toList ++ extra args else c :: extra args
  | c :: d :: rest, args =>
    if c = '%' then
      if d = '%' then '%' :: doPrintf rest args
      else
        match args with
        | [] => '%' :: '!' :: d :: "(MISSING)".toList ++ doPrintf rest []
        | a :: more => fmtVerb d a ++ doPrintf rest more
    else c :: doPrintf (d :: rest) args

/-- Result of `fmt.Sprintf(format, args...)`. -/
def Sprintf (format : String) (args : List Arg) : String :=
  String.mk (doPrintf format.toList args)

end Fmt

/-- Nanoseconds in `time.Second`; every clock reading and `time.Duration` is a
number of nanoseconds. -/
def second : Nat := 1000000000

namespace Http

/-- What a handler leaves in the `http.ResponseWriter`: the status line and the
bytes of the body. -/
structure Response where
  status : Nat
  body : String
  deriving DecidableEq, Repr

/-- The constant `http.StatusOK`. -/
def StatusOK : Nat := 200

/-- The constant `http.StatusBadRequest`. -/
def StatusBadRequest : Nat := 400

/-- The constant `http.StatusNotFound`. -/
def StatusNotFound : Nat := 404

/-- The constant `http.StatusInternalServerError`. -/
def StatusInternalServerError : Nat := 500

/-- Reply written by `http.Error(w, msg, code)`: the given status and the
message followed by a newline. -/
def Error (msg : String) (code : Nat) : Response :=
  { status := code, body := msg ++ "\n" }

/-- Reply written by `fmt.Fprintf(w, format, args...)` on a fresh writer: the
first write sends status 200, the body is the formatted text. -/
def Fprintf (format : String) (args : List Fmt.Arg) : Response :=
  { status := StatusOK, body := Fmt.Sprintf format args }

/-- An inbound request, reduced to its parsed query: the key/value pairs of the
query string in the order they appear. -/
structure Request where
  query : List (String × String)
  deriving DecidableEq, Repr

/-- The call `r.URL.Query().Get(key)`: the first value given for `key`, the
empty string when the key does not occur. -/
def Request.Get (r : Request) (key : String) : String :=
  match r.query.find? (fun kv => kv.1 = key) with
  | some kv => kv.2
  | none => ""

end Http

/-- How one `GET` can fail below HTTP.  The first three are the failures the
retrying client singles out as not worth repeating; `other` is every other
failure (refused or reset connection, timeout, DNS). -/
inductive TransportError where
  | tooManyRedirects
  | unsupportedScheme
  | certNotTrusted
  | other
  deriving DecidableEq, Repr

/-- Outcome of one `GET` issued through the underlying `http.Client`: a
transport failure or a response with its status code. -/
inductive Outcome where
  | error (e : TransportError)
  | response (status : Nat)
  deriving DecidableEq, Repr

/-- Result of `rdb.Incr(ctx, key).Result()`: the new value or an error. -/
inductive StoreResult where
  | ok (n : Int)
  | err
  deriving DecidableEq, Repr

/-- The world outside the process.  `parses url` says whether a request for
`url` can be built; `roundTrip url k` is the outcome of the `k`-th `GET` the
process issues (counting from 0 over the whole run) and `getTime k` the time
that `GET` takes, the pause before a retry included; `incr key k` is the result
of the `k`-th `INCR` and `incrTime k` the time it takes. -/
structure Oracle where
  parses : String → Bool
  roundTrip : String → Nat → Outcome
  getTime : Nat → Nat
  incr : String → Nat → StoreResult
  incrTime : Nat → Nat

namespace Ratelimit

/-- Modelled from the spec: the limiter returned by `ratelimit.New` (package
`go.uber.org/ratelimit`) is not under `src/`.  Section 3 describes the rate
gate as a token bucket with a capacity, a refill interval, a current token
count and a last-refill timestamp. -/
structure Limiter where
  capacity : Nat
  interval : Nat
  tokens : Nat
  lastRefill : Nat
  deriving DecidableEq, Repr

/-- Modelled from the spec: `ratelimit.New(rate, ratelimit.Per(per))`, `rate`
admissions per window `per`: a full bucket of `rate` tokens, one token
refilled every `per / rate`. -/
def New (rate per : Nat) : Limiter :=
  { capacity := rate, interval := per / rate, tokens := rate, lastRefill := 0 }

/-- Modelled from the spec: tokens refilled up to the clock reading `now`, one
per elapsed interval, never above the capacity. -/
def Limiter.refill (l : Limiter) (now : Nat) : Limiter :=
  let k := (now - l.lastRefill) / l.interval
  if l.capacity ≤ l.tokens + k then { l with tokens := l.capacity, lastRefill := now }
  else { l with tokens := l.tokens + k, lastRefill := l.lastRefill + k * l.interval }

/-- Modelled from the spec: `Take()` called at clock reading `now` (section
4.1: block until a token is available, then consume it; never fails).  Returns
the time of admission and the limiter afterwards. -/
def Limiter.Take (l : Limiter) (now : Nat) : Nat × Limiter :=
  let l1 := l.refill now
  if 0 < l1.tokens then (now, { l1 with tokens := l1.tokens - 1 })
  else
    (l1.lastRefill + l1.interval,
      { l1 with tokens := 0, lastRefill := l1.lastRefill + l1.interval })

end Ratelimit

/-- A line written through `slog`: level, message and attributes. -/
structure LogLine where
  level : String
  msg : String
  attrs : List (String × String)
  deriving DecidableEq, Repr

namespace Gobreaker

/-- Modelled from the spec: the breaker of package `github.com/sony/gobreaker`
is not under `src/`.  Section 3 gives its states: Closed, HalfOpen, Open. -/
inductive State where
  | StateClosed
  | StateHalfOpen
  | StateOpen
  deriving DecidableEq, Repr

/-- Text of a state, as `State.String()` gives it to the log line. -/
def State.String : State → String
  | .StateClosed => "closed"
  | .StateHalfOpen => "half-open"
  | .StateOpen => "open"

/-- Modelled from the spec: the counters handed to `ReadyToTrip`; section 3
keeps a consecutive-failure count, the only field `init` reads. -/
structure Counts where
  ConsecutiveFailures : Nat
  deriving DecidableEq, Repr

/-- The fields of `gobreaker.Settings` that `init` sets.  `OnStateChange` is
given as the log lines the observer writes. -/
structure Settings where
  Name : String
  Timeout : Nat
  ReadyToTrip : Counts → Bool
  OnStateChange : String → State → State → List LogLine

/-- Modelled from the spec: the mutable part of the breaker (section 3): the
state, the consecutive-failure count and, while Open, the clock reading at
which the cooldown ends. -/
structure CircuitBreaker where
  state : State
  counts : Counts
  expiry : Nat
  deriving DecidableEq, Repr

/-- One call of the `OnStateChange` observer: breaker name, prior state, new state. -/
structure Change where
  name : String
  src : State
  dst : State
  deriving DecidableEq, Repr

/-- Modelled from the spec: a new breaker is Closed with no failure counted
(section 4.3, "Closed (initial)"). -/
def NewCircuitBreaker : CircuitBreaker :=
  { state := .StateClosed, counts := { ConsecutiveFailures := 0 }, expiry := 0 }

/-- Modelled from the spec: entering state `s` at clock reading `now`: the
failure count starts again from zero and entering Open starts the cooldown
timer, which runs for `Timeout`. -/
def setState (st : Settings) (cb : CircuitBreaker) (s : State) (now : Nat) :
    CircuitBreaker × List Change :=
  ({ state := s, counts := { ConsecutiveFailures := 0 },
     expiry := if s = .StateOpen then now + st.Timeout else 0 },
   [{ name := st.Name, src := cb.state, dst := s }])

/-- Modelled from the spec: the state a call attempt at `now` finds: an Open
breaker whose cooldown has elapsed becomes HalfOpen on that attempt (section
4.3, Open). -/
def currentState (st : Settings) (cb : CircuitBreaker) (now : Nat) :
    CircuitBreaker × List Change :=
  if cb.state = .StateOpen ∧ cb.expiry ≤ now then setState st cb .StateHalfOpen now
  else (cb, [])

/-- Modelled from the spec: a call that succeeded: Closed resets the failure
count to zero, HalfOpen closes the breaker (section 4.3). -/
def onSuccess (st : Settings) (cb : CircuitBreaker) (now : Nat) : CircuitBreaker × List Change :=
  match cb.state with
  | .StateClosed => ({ cb with counts := { ConsecutiveFailures := 0 } }, [])
  | .StateHalfOpen => setState st cb .StateClosed now
  | .StateOpen => (cb, [])

/-- Modelled from the spec: a call that failed: Closed counts it and opens the
breaker once `ReadyToTrip` says so, HalfOpen reopens it (section 4.3). -/
def onFailure (st : Settings) (cb : CircuitBreaker) (now : Nat) : CircuitBreaker × List Change :=
  match cb.state with
  | .StateClosed =>
    let counts : Counts := { ConsecutiveFailures := cb.counts.ConsecutiveFailures + 1 }
    if st.ReadyToTrip counts then setState st cb .StateOpen now
    else ({ cb with counts := counts }, [])
  | .StateHalfOpen => setState st cb .StateOpen now
  | .StateOpen => (cb, [])

end Gobreaker

/-- A value of type `interface{}`: the closure handed to `cb.Execute` returns
`nil` or a `string`. -/
inductive Any where
  | nil
  | str (s : String)
  deriving DecidableEq, Repr

/-- An `error` value met by the handler: the store's, or the breaker's
rejection (`gobreaker.ErrOpenState`). -/
inductive Error where
  | store
  | ErrOpenState
  deriving DecidableEq, Repr

/-- The process and what it has done so far: the clock, the state of the rate
limiter and of the breaker (both unused by the baseline program), how many
times `Take`, a `GET`, `cb.Execute` and `INCR` have been carried out, and the
log. -/
structure World where
  now : Nat
  rateLimiter : Ratelimit.Limiter
  cb : Gobreaker.CircuitBreaker
  takes : Nat
  gets : Nat
  executes : Nat
  incrs : Nat
  log : List LogLine
  deriving DecidableEq, Repr

/-- One `GET` through the underlying `http.Client`: the oracle gives its
outcome, the call is counted and its duration passes. -/
def World.get (o : Oracle) (url : String) (w : World) : Outcome × World :=
  (o.roundTrip url w.gets, { w with gets := w.gets + 1, now := w.now + o.getTime w.gets })

/-- The call `rdb.Incr(context.Background(), key).Result()`. -/
def World.Incr (o : Oracle) (key : String) (w : World) : StoreResult × World :=
  (o.incr key w.incrs, { w with incrs := w.incrs + 1, now := w.now + o.incrTime w.incrs })

namespace Gobreaker

/-- Modelled from the spec: the observer is told of every transition, with
the prior and the new state (section 4.3). -/
def notify (st : Settings) (changes : List Change) : List LogLine :=
  (changes.map (fun c => st.OnStateChange c.name c.src c.dst)).flatten

/-- Modelled from the spec: `cb.Execute(req)` (section 4.3): an Open breaker
rejects the call with `ErrOpenState` without invoking `req` and without
counting a failure; otherwise `req` runs, its result is returned unchanged and
its success or failure drives the state machine. -/
def Execute (st : Settings) (req : World → (Any × Option Error) × World) (w : World) :
    (Any × Option Error) × World :=
  let before := currentState st w.cb w.now
  let w1 : World :=
    { w with cb := before.1, executes := w.executes + 1, log := w.log ++ notify st before.2 }
  if before.1.state = .StateOpen then ((.nil, some .ErrOpenState), w1)
  else
    let r := req w1
    let after := if r.1.2 = none then onSuccess st r.2.cb r.2.now else onFailure st r.2.cb r.2.now
    (r.1, { r.2 with cb := after.1, log := r.2.log ++ notify st after.2 })

end Gobreaker

namespace Retryablehttp

/-- The field of `retryablehttp.Client` that `init` sets. -/
structure Client where
  RetryMax : Nat
  deriving DecidableEq, Repr

/-- The client `retryablehttp.NewClient()` returns: up to 4 retries, retry
decisions by `DefaultRetryPolicy`, no error handler. -/
def NewClient : Client := { RetryMax := 4 }

/-- A request built by `NewRequest`. -/
structure Request where
  method : String
  url : String
  deriving DecidableEq, Repr

/-- The call `retryablehttp.NewRequest(method, url, nil)`: a request, or nothing
when `url` does not parse. -/
def NewRequest (o : Oracle) (method url : String) : Option Request :=
  if o.parses url then some { method := method, url := url } else none

/-- The function `DefaultRetryPolicy` of package
`github.com/hashicorp/go-retryablehttp` (a dependency; its code is not under
`src/`), which `NewClient` installs as `CheckRetry`, on a context that is not
cancelled: a transport failure is retried unless it is a redirect-limit,
unsupported-scheme or untrusted-certificate failure; a response is retried
when its status is 429, 0, or 500 and above other than 501. -/
def DefaultRetryPolicy : Outcome → Bool
  | .error .tooManyRedirects => false
  | .error .unsupportedScheme => false
  | .error .certNotTrusted => false
  | .error .other => true
  | .response status => status = 429 ∨ status = 0 ∨ (500 ≤ status ∧ status ≠ 501)

/-- The attempt loop of `Client.Do` in the same package: `for i := 0; ; i++`,
with `remain` standing for `c.RetryMax - i`.  Each pass issues one `GET` and
asks the policy; the loop stops when the policy declines or no retry remains.
Returns the last outcome and the policy's last answer. -/
def attempts (o : Oracle) (url : String) : Nat → World → (Outcome × Bool) × World
  | remain, w =>
    let r := w.get o url
    let shouldRetry := DefaultRetryPolicy r.1
    if shouldRetry = false then ((r.1, false), r.2)
    else
      match remain with
      | 0 => ((r.1, true), r.2)
      | n + 1 => attempts o url n r.2

/-- The call `c.Do(req)`: the response (its status code) when the last attempt
gave one and the policy did not ask for a retry; an error (`none`) otherwise,
since the client has no `ErrorHandler`. -/
def Client.Do (c : Client) (o : Oracle) (req : Request) (w : World) : Option Nat × World :=
  let r := attempts o req.url c.RetryMax w
  match r.1 with
  | (.response status, false) => (some status, r.2)
  | _ => (none, r.2)

end Retryablehttp

namespace AppResilience

/-- The observer set in `init` (`src/app_resilience/main.go`, lines 41-43): one
Info line with the breaker name and both states. -/
def OnStateChange (name : String) (src dst : Gobreaker.State) : List LogLine :=
  [{ level := "INFO", msg := "Circuit breaker state changed",
     attrs := [("name", name), ("from", src.String), ("to", dst.String)] }]

/-- The settings of `cb` (`init`, lines 35-44). -/
def cbSettings : Gobreaker.Settings :=
  { Name := "Redis"
    Timeout := 30 * second
    ReadyToTrip := fun counts => decide (counts.ConsecutiveFailures ≥ 3)
    OnStateChange := OnStateChange }

/-- The limiter built in `init` (line 46): `ratelimit.New(1, ratelimit.Per(10*time.Second))`. -/
def rateLimiter : Ratelimit.Limiter := Ratelimit.New 1 (10 * second)

/-- The retrying client built in `init` (lines 48-49). -/
def client : Retryablehttp.Client := { Retryablehttp.NewClient with RetryMax := 3 }

/-- The process right after `init`, at clock reading `t`. -/
def init (t : Nat) : World :=
  { now := t, rateLimiter := rateLimiter, cb := Gobreaker.NewCircuitBreaker,
    takes := 0, gets := 0, executes := 0, incrs := 0, log := [] }

/-- The statement `rateLimiter.Take()`: the caller resumes at the time of admission. -/
def Take (w : World) : World :=
  let r := w.rateLimiter.Take w.now
  { w with now := r.1, rateLimiter := r.2, takes := w.takes + 1 }

/-- The function `hostExists` of `src/app_resilience/main.go` (lines 52-64). -/
def hostExists (o : Oracle) (url : String) (w : World) : Bool × World :=
  match Retryablehttp.NewRequest o "GET" url with
  | none => (false, w)
  | some req =>
    let r := client.Do o req w
    match r.1 with
    | none => (false, r.2)
    | some status => (decide (status = Http.StatusOK), r.2)

/-- The closure handed to `cb.Execute` (lines 78-84). -/
def incrCounter (o : Oracle) (w : World) : (Any × Option Error) × World :=
  let r := w.Incr o "counter"
  match r.1 with
  | .err => ((.nil, some .store), r.2)
  | .ok count => ((.str (Fmt.Sprintf "Counter: %d\n" [.int count]), none), r.2)

/-- The function `handler` of `src/app_resilience/main.go` (lines 66-94).  The
reply is `none` when the handler panics (a failed type assertion). -/
def handler (o : Oracle) (r : Http.Request) (w : World) : Option Http.Response × World :=
  let w1 := Take w
  let host := r.Get "host"
  if host = "" then
    (some (Http.Error "Host parameter is missing" Http.StatusBadRequest), w1)
  else
    let p := hostExists o host w1
    if p.1 then
      let e := Gobreaker.Execute cbSettings (incrCounter o) p.2
      if e.1.2 ≠ none then
        (some (Http.Error "Could not increment counter" Http.StatusInternalServerError), e.2)
      else
        match e.1.1 with
        | .str body => (some (Http.Fprintf body []), e.2)
        | .nil => (none, e.2)
    else
      (some (Http.Error "Host not found" Http.StatusNotFound), p.2)

/-- The probe step of `handler` on request `r`: `hostExists(host)` run after `Take`. -/
def probed (o : Oracle) (r : Http.Request) (w : World) : Bool × World :=
  hostExists o (r.Get "host") (Take w)

/-- The guarded store step of `handler` on request `r`: `cb.Execute` of the
increment closure, run where the probe ended. -/
def guarded (o : Oracle) (r : Http.Request) (w : World) : (Any × Option Error) × World :=
  Gobreaker.Execute cbSettings (incrCounter o) (probed o r w).2

end AppResilience

namespace App

/-- The function `hostExists` of `src/app/main.go` (lines 29-36): `http.Get`
builds the request and issues one `GET`, with no retry. -/
def hostExists (o : Oracle) (url : String) (w : World) : Bool × World :=
  if o.parses url then
    let r := w.get o url
    match r.1 with
    | .error _ => (false, r.2)
    | .response status => (decide (status = Http.StatusOK), r.2)
  else (false, w)

/-- The function `handler` of `src/app/main.go` (lines 38-55). -/
def handler (o : Oracle) (r : Http.Request) (w : World) : Option Http.Response × World :=
  let host := r.Get "host"
  if host = "" then
    (some (Http.Error "Host parameter is missing" Http.StatusBadRequest), w)
  else
    let p := hostExists o host w
    if p.1 then
      let c := p.2.Incr o "counter"
      match c.1 with
      | .err => (some (Http.Error "Could not increment counter" Http.StatusInternalServerError), c.2)
      | .ok count => (some (Http.Fprintf "Counter: %d\n" [.int count]), c.2)
    else
      (some (Http.Error "Host not found" Http.StatusNotFound), p.2)

end App

namespace Main

/-- The non-nil errors `server.Shutdown(ctx)` can return, as
`errors.Is(err, context.DeadlineExceeded)` tells them apart; `other` carries
the error text. -/
inductive ShutdownError where
  | DeadlineExceeded
  | other (text : String)
  deriving DecidableEq, Repr

/-- The part of `main` the shutdown goroutine acts on: the log, whether the
channel `idleConnsClosed` is closed, how many `close` statements have run, and
whether the goroutine has panicked. -/
structure Proc where
  log : List LogLine
  idleConnsClosed : Bool
  closes : Nat
  panicked : Bool
  deriving DecidableEq, Repr

/-- The process when the signal arrives: `make(chan struct{})` gave an open channel. -/
def start : Proc := { log := [], idleConnsClosed := false, closes := 0, panicked := false }

/-- A call of `slog.Info`, `slog.Warn` or `slog.Error`. -/
def Proc.slog (p : Proc) (level msg : String) (attrs : List (String × String)) : Proc :=
  { p with log := p.log ++ [{ level := level, msg := msg, attrs := attrs }] }

/-- The statement `close(idleConnsClosed)`: closing a closed channel panics. -/
def Proc.close (p : Proc) : Proc :=
  if p.panicked then p
  else if p.idleConnsClosed then { p with panicked := true, closes := p.closes + 1 }
  else { p with idleConnsClosed := true, closes := p.closes + 1 }

/-- The goroutine of `main` from the point the signal has been received
(`src/app_resilience/main.go`, lines 108-122; `src/app/main.go`, lines 68-82
are the same statements), given what `server.Shutdown(ctx)` returns. -/
def goroutine (err : Option ShutdownError) (p : Proc) : Proc :=
  let p1 := p.slog "INFO" "Server is shutting down..." []
  match err with
  | some e =>
    let p2 :=
      match e with
      | .DeadlineExceeded => p1.slog "WARN" "HTTP server Shutdown: timeout" []
      | .other text => p1.slog "ERROR" "HTTP server Shutdown: " [("!BADKEY", text)]
    p2.close
  | none =>
    let p2 := p1.slog "INFO" "Server is shut down" []
    p2.close

/-- The last statement of `main`, `<-idleConnsClosed`, returns exactly when the
channel is closed. -/
def mainReturns (p : Proc) : Bool := p.idleConnsClosed

end Main

/-! ## Auxiliary notions used by the statements -/

/-- Everything a world holds apart from the clock and the count of `GET`s. -/
def World.sameButProbe (w w1 : World) : Prop :=
  w1.rateLimiter = w.rateLimiter ∧ w1.cb = w.cb ∧ w1.takes = w.takes ∧
    w1.executes = w.executes ∧ w1.incrs = w.incrs ∧ w1.log = w.log

namespace Gobreaker

/-- The world in which `Execute` either rejects the call or runs it. -/
def admitted (st : Settings) (w : World) : World :=
  { w with cb := (currentState st w.cb w.now).1, executes := w.executes + 1,
           log := w.log ++ notify st (currentState st w.cb w.now).2 }

end Gobreaker

/-! ## Concrete surroundings used to run the programs -/

namespace Scenario

/-- Every URL parses, every `GET` is answered 200 at once, the store answers 1, 2, 3, ... -/
def healthy : Oracle :=
  { parses := fun _ => true
    roundTrip := fun _ _ => .response 200
    getTime := fun _ => 0
    incr := fun _ k => .ok (k + 1)
    incrTime := fun _ => 0 }

/-- As `healthy`, but every `INCR` fails. -/
def storeDown : Oracle := { healthy with incr := fun _ _ => .err }

/-- As `healthy`, but every `GET` fails with a connection error. -/
def hostDown : Oracle := { healthy with roundTrip := fun _ _ => .error .other }

/-- As `healthy`, but the first `GET` is answered 503. -/
def busyOnce : Oracle :=
  { healthy with roundTrip := fun _ k => if k = 0 then .response 503 else .response 200 }

/-- As `healthy`, but every `GET` fails on an untrusted certificate. -/
def badCertificate : Oracle := { healthy with roundTrip := fun _ _ => .error .certNotTrusted }

/-- As `healthy`, but every `GET` is answered 404. -/
def notFound : Oracle := { healthy with roundTrip := fun _ _ => .response 404 }

/-- As `healthy`, but every `GET` is answered with the status 999. -/
def outOfRange : Oracle := { healthy with roundTrip := fun _ _ => .response 999 }

/-- As `healthy`, but the first two `GET`s fail with a connection error. -/
def downTwice : Oracle :=
  { healthy with roundTrip := fun _ k => if k < 2 then .error .other else .response 200 }

/-- A request with no query at all. -/
def noHost : Http.Request := { query := [] }

/-- A request naming a host. -/
def withHost : Http.Request := { query := [("host", "http://ok.example")] }

end Scenario

/-! ## Requests served one after another -/

namespace AppResilience

/-- The clock moves on to `t` (it never moves back). -/
def arrive (w : World) (t : Nat) : World := { w with now := max w.now t }

/-- One request entering `handler` at clock reading `t`, or as soon as the
process is free again. -/
def serve (o : Oracle) (t : Nat) (r : Http.Request) (w : World) : Option Http.Response × World :=
  handler o r (arrive w t)

/-- The world after a list of requests, each with its arrival time, has been served in order. -/
def serveAll (o : Oracle) : List (Nat × Http.Request) → World → World
  | [], w => w
  | (t, r) :: rest, w => serveAll o rest (serve o t r w).2

/-- Request `r`, arriving at `t`, names a host and the probe of it succeeds: the
handler gets as far as the store call. -/
def reachable (o : Oracle) (t : Nat) (r : Http.Request) (w : World) : Prop :=
  r.Get "host" ≠ "" ∧ (probed o r (arrive w t)).1 = true

/-- The clock reading at which request `r`, arriving at `t`, reaches `cb.Execute`. -/
def executeTime (o : Oracle) (t : Nat) (r : Http.Request) (w : World) : Nat :=
  (probed o r (arrive w t)).2.now

end AppResilience

namespace Scenario

/-- The process after one, two, three and four requests for a reachable host,
all arriving at time 0, with the store down. -/
def failedOnce : World := AppResilience.serveAll storeDown [(0, withHost)] (AppResilience.init 0)

/-- See `failedOnce`. -/
def failedTwice : World :=
  AppResilience.serveAll storeDown [(0, withHost), (0, withHost)] (AppResilience.init 0)

/-- See `failedOnce`. -/
def failedThrice : World :=
  AppResilience.serveAll storeDown [(0, withHost), (0, withHost), (0, withHost)]
    (AppResilience.init 0)

/-- See `failedOnce`. -/
def afterFourth : World :=
  AppResilience.serveAll storeDown [(0, withHost), (0, withHost), (0, withHost), (0, withHost)]
    (AppResilience.init 0)

end Scenario

/-! ## Formatting -/

namespace Fmt

theorem digitChar_ne_percent : ∀ d, d < 10 → Nat.digitChar d ≠ '%' := by
  decide

theorem toDigitsCore_no_percent (fuel : Nat) :
    ∀ (n : Nat) (acc : List Char), '%' ∉ acc → '%' ∉ Nat.toDigitsCore 10 fuel n acc := by
  induction fuel with
  | zero => intro n acc h; simpa [Nat.toDigitsCore] using h
  | succ f ih =>
    intro n acc h
    have hd : '%' ∉ Nat.digitChar (n % 10) :: acc := by
      simp only [List.mem_cons, not_or]
      exact ⟨fun e => digitChar_ne_percent _ (Nat.mod_lt _ (by decide)) e.symm, h⟩
    simp only [Nat.toDigitsCore]
    split_ifs
    · exact hd
    · exact ih _ _ hd

theorem formatInt_no_percent (i : Int) : '%' ∉ formatInt i := by
  have h : ∀ n, '%' ∉ Nat.toDigits 10 n := fun n => toDigitsCore_no_percent _ _ _ (by simp)
  unfold formatInt
  split
  · simp only [List.mem_cons, not_or]
    exact ⟨by decide, h _⟩
  · exact h _

theorem doPrintf_no_percent : ∀ (f : List Char), '%' ∉ f → doPrintf f [] = f
  | [], _ => by simp [doPrintf, extra]
  | [c], h => by
    have hc : c ≠ '%' := fun e => h (by simp [e])
    simp [doPrintf, extra, hc]
  | c :: d :: rest, h => by
    have hc : c ≠ '%' := fun e => h (by simp [e])
    have hr : '%' ∉ d :: rest := fun m => h (List.mem_cons_of_mem _ m)
    rw [doPrintf, if_neg hc, doPrintf_no_percent (d :: rest) hr]

/-- The text `Sprintf("Counter: %d\n", n)` produces. -/
theorem sprintf_counter (n : Int) :
    Sprintf "Counter: %d\n" [.int n] = String.mk ("Counter: ".toList ++ formatInt n ++ ['\n']) := by
  simp [Sprintf, doPrintf, fmtVerb, extra]

theorem counter_no_percent (n : Int) : '%' ∉ "Counter: ".toList ++ formatInt n ++ ['\n'] := by
  have h := formatInt_no_percent n
  simp only [List.mem_append, not_or]
  exact ⟨⟨by decide, h⟩, by decide⟩

/-- Using the formatted counter line as a format string with no operand prints
the line itself. -/
theorem sprintf_sprintf_counter (n : Int) :
    Sprintf (Sprintf "Counter: %d\n" [.int n]) [] = Sprintf "Counter: %d\n" [.int n] := by
  rw [sprintf_counter]
  show String.mk (doPrintf ("Counter: ".toList ++ formatInt n ++ ['\n']) []) = _
  rw [doPrintf_no_percent _ (counter_no_percent n)]

end Fmt

/-! ## What probing leaves untouched -/

theorem World.sameButProbe_refl (w : World) : w.sameButProbe w :=
  ⟨rfl, rfl, rfl, rfl, rfl, rfl⟩

theorem World.sameButProbe_get (o : Oracle) (url : String) (w : World) :
    w.sameButProbe (w.get o url).2 :=
  ⟨rfl, rfl, rfl, rfl, rfl, rfl⟩

theorem World.sameButProbe_trans {a b c : World} (h1 : a.sameButProbe b) (h2 : b.sameButProbe c) :
    a.sameButProbe c := by
  obtain ⟨a1, a2, a3, a4, a5, a6⟩ := h1
  obtain ⟨b1, b2, b3, b4, b5, b6⟩ := h2
  exact ⟨b1.trans a1, b2.trans a2, b3.trans a3, b4.trans a4, b5.trans a5, b6.trans a6⟩

namespace Retryablehttp

theorem attempts_zero (o : Oracle) (url : String) (w : World) :
    attempts o url 0 w = ((o.roundTrip url w.gets, DefaultRetryPolicy (o.roundTrip url w.gets)),
      (w.get o url).2) := by
  unfold attempts
  cases h : DefaultRetryPolicy (o.roundTrip url w.gets) <;> simp [World.get, h]

theorem attempts_stop (o : Oracle) (url : String) (remain : Nat) (w : World)
    (h : DefaultRetryPolicy (o.roundTrip url w.gets) = false) :
    attempts o url remain w = ((o.roundTrip url w.gets, false), (w.get o url).2) := by
  unfold attempts
  simp [World.get, h]

theorem attempts_retry (o : Oracle) (url : String) (remain : Nat) (w : World)
    (h : DefaultRetryPolicy (o.roundTrip url w.gets) = true) :
    attempts o url (remain + 1) w = attempts o url remain (w.get o url).2 := by
  rw [attempts]
  simp [World.get, h]

theorem attempts_frame (o : Oracle) (url : String) :
    ∀ (remain : Nat) (w : World),
      w.sameButProbe (attempts o url remain w).2 ∧
        w.gets + 1 ≤ (attempts o url remain w).2.gets ∧
        (attempts o url remain w).2.gets ≤ w.gets + remain + 1 := by
  intro remain
  induction remain with
  | zero =>
    intro w
    rw [attempts_zero]
    exact ⟨World.sameButProbe_get o url w, by simp [World.get], by simp [World.get]⟩
  | succ n ih =>
    intro w
    cases h : DefaultRetryPolicy (o.roundTrip url w.gets)
    · rw [attempts_stop o url _ w h]
      exact ⟨World.sameButProbe_get o url w, by simp [World.get], by simp [World.get]⟩
    · rw [attempts_retry o url n w h]
      obtain ⟨h1, h2, h3⟩ := ih (w.get o url).2
      refine ⟨World.sameButProbe_trans (World.sameButProbe_get o url w) h1, ?_, ?_⟩
      · have : (w.get o url).2.gets = w.gets + 1 := rfl
        omega
      · have : (w.get o url).2.gets = w.gets + 1 := rfl
        omega

theorem Do_world (c : Client) (o : Oracle) (req : Request) (w : World) :
    (c.Do o req w).2 = (attempts o req.url c.RetryMax w).2 := by
  unfold Client.Do
  dsimp only
  split <;> rfl

end Retryablehttp

namespace AppResilience

theorem hostExists_frame (o : Oracle) (url : String) (w : World) :
    w.sameButProbe (hostExists o url w).2 := by
  unfold hostExists
  split
  · exact World.sameButProbe_refl w
  · rename_i req _
    have h := (Retryablehttp.attempts_frame o req.url client.RetryMax w).1
    rw [← Retryablehttp.Do_world] at h
    dsimp only
    split <;> exact h

end AppResilience

/-! ## The breaker around the store call -/

namespace Gobreaker

theorem Execute_open (st : Settings) (req : World → (Any × Option Error) × World) (w : World)
    (h : (currentState st w.cb w.now).1.state = .StateOpen) :
    Execute st req w = ((.nil, some .ErrOpenState), admitted st w) := by
  simp [Execute, admitted, h]

theorem Execute_run (st : Settings) (req : World → (Any × Option Error) × World) (w : World)
    (h : (currentState st w.cb w.now).1.state ≠ .StateOpen) :
    (Execute st req w).1 = (req (admitted st w)).1 ∧
      (Execute st req w).2.incrs = (req (admitted st w)).2.incrs := by
  simp [Execute, admitted, h]

end Gobreaker

namespace AppResilience

theorem incrCounter_incrs (o : Oracle) (w : World) : (incrCounter o w).2.incrs = w.incrs + 1 := by
  unfold incrCounter
  dsimp only
  split <;> rfl

theorem incrCounter_err (o : Oracle) (w : World) (h : o.incr "counter" w.incrs = .err) :
    (incrCounter o w).1 = (.nil, some .store) := by
  simp [incrCounter, World.Incr, h]

theorem incrCounter_ok (o : Oracle) (w : World) (n : Int) (h : o.incr "counter" w.incrs = .ok n) :
    (incrCounter o w).1 = (.str (Fmt.Sprintf "Counter: %d\n" [.int n]), none) := by
  simp [incrCounter, World.Incr, h]

/-- The reply of the handler once the probe has succeeded, by what `Execute` returned. -/
theorem handler_of_probe (o : Oracle) (r : Http.Request) (w : World)
    (hh : r.Get "host" ≠ "") (hp : (hostExists o (r.Get "host") (Take w)).1 = true) :
    handler o r w =
      (if (Gobreaker.Execute cbSettings (incrCounter o)
            (hostExists o (r.Get "host") (Take w)).2).1.2 ≠ none then
          some (Http.Error "Could not increment counter" Http.StatusInternalServerError)
        else
          match (Gobreaker.Execute cbSettings (incrCounter o)
            (hostExists o (r.Get "host") (Take w)).2).1.1 with
          | .str body => some (Http.Fprintf body [])
          | .nil => none,
       (Gobreaker.Execute cbSettings (incrCounter o)
            (hostExists o (r.Get "host") (Take w)).2).2) := by
  unfold handler
  simp only [hh, hp, if_true, if_false]
  split_ifs
  · rfl
  · split <;> rfl

end AppResilience

namespace AppResilience

theorem Take_frame (w : World) :
    (Take w).cb = w.cb ∧ (Take w).gets = w.gets ∧ (Take w).executes = w.executes ∧
      (Take w).incrs = w.incrs ∧ (Take w).log = w.log ∧ (Take w).takes = w.takes + 1 :=
  ⟨rfl, rfl, rfl, rfl, rfl, rfl⟩

theorem probed_frame (o : Oracle) (r : Http.Request) (w : World) :
    (probed o r w).2.cb = w.cb ∧ (probed o r w).2.executes = w.executes ∧
      (probed o r w).2.incrs = w.incrs ∧ (probed o r w).2.log = w.log ∧
      (probed o r w).2.takes = w.takes + 1 ∧ (probed o r w).2.rateLimiter = (Take w).rateLimiter := by
  obtain ⟨h1, h2, h3, h4, h5, h6⟩ := hostExists_frame o (r.Get "host") (Take w)
  exact ⟨h2, h4, h5, h6, h3, h1⟩

/-- When `Execute` reports an error: the breaker is Open or the store failed. -/
theorem guarded_error_iff (o : Oracle) (r : Http.Request) (w : World) :
    (guarded o r w).1.2 ≠ none ↔
      ((Gobreaker.currentState cbSettings w.cb (probed o r w).2.now).1.state = .StateOpen ∨
        o.incr "counter" w.incrs = .err) := by
  have hcb := (probed_frame o r w).1
  have hin := (probed_frame o r w).2.2.1
  unfold guarded
  by_cases hopen : (Gobreaker.currentState cbSettings (probed o r w).2.cb (probed o r w).2.now).1.state
      = .StateOpen
  · rw [Gobreaker.Execute_open _ _ _ hopen]
    rw [hcb] at hopen
    simp [hopen]
  · rw [(Gobreaker.Execute_run _ _ _ hopen).1]
    have hi : (Gobreaker.admitted cbSettings (probed o r w).2).incrs = w.incrs := hin
    rw [hcb] at hopen
    cases hs : o.incr "counter" w.incrs with
    | ok n => rw [incrCounter_ok o _ n (by rw [hi]; exact hs)]; simp [hopen]
    | err => rw [incrCounter_err o _ (by rw [hi]; exact hs)]; simp

/-- When `Execute` reports no error, it hands back the line the closure built
from the store's answer. -/
theorem guarded_ok (o : Oracle) (r : Http.Request) (w : World)
    (h : (guarded o r w).1.2 = none) :
    ∃ n, o.incr "counter" w.incrs = .ok n ∧
      (guarded o r w).1.1 = .str (Fmt.Sprintf "Counter: %d\n" [.int n]) := by
  have hcb := (probed_frame o r w).1
  have hin := (probed_frame o r w).2.2.1
  have herr := guarded_error_iff o r w
  rw [h] at herr
  simp only [ne_eq, not_true_eq_false, false_iff, not_or] at herr
  obtain ⟨hopen, hstore⟩ := herr
  rw [← hcb] at hopen
  have hi : (Gobreaker.admitted cbSettings (probed o r w).2).incrs = w.incrs := hin
  cases hs : o.incr "counter" w.incrs with
  | err => exact absurd hs hstore
  | ok n =>
    refine ⟨n, rfl, ?_⟩
    unfold guarded
    rw [(Gobreaker.Execute_run _ _ _ hopen).1, incrCounter_ok o _ n (by rw [hi]; exact hs)]

theorem handler_reply_error (o : Oracle) (r : Http.Request) (w : World)
    (hh : r.Get "host" ≠ "") (hp : (probed o r w).1 = true) (he : (guarded o r w).1.2 ≠ none) :
    (handler o r w).1 = some { status := 500, body := "Could not increment counter\n" } := by
  rw [handler_of_probe o r w hh hp]
  have he2 : (Gobreaker.Execute cbSettings (incrCounter o)
      (hostExists o (r.Get "host") (Take w)).2).1.2 ≠ none := he
  simp [he2, Http.Error, Http.StatusInternalServerError]

theorem handler_reply_ok (o : Oracle) (r : Http.Request) (w : World)
    (hh : r.Get "host" ≠ "") (hp : (probed o r w).1 = true) (he : (guarded o r w).1.2 = none) :
    ∃ n, o.incr "counter" w.incrs = .ok n ∧
      (handler o r w).1 = some (Http.Fprintf "Counter: %d\n" [.int n]) := by
  obtain ⟨n, hn, hbody⟩ := guarded_ok o r w he
  refine ⟨n, hn, ?_⟩
  rw [handler_of_probe o r w hh hp]
  have he2 : (Gobreaker.Execute cbSettings (incrCounter o)
      (hostExists o (r.Get "host") (Take w)).2).1.2 = none := he
  have hb2 : (Gobreaker.Execute cbSettings (incrCounter o)
      (hostExists o (r.Get "host") (Take w)).2).1.1
        = .str (Fmt.Sprintf "Counter: %d\n" [.int n]) := hbody
  simp only [he2, hb2, ne_eq, not_true_eq_false, if_false]
  rw [Http.Fprintf, Http.Fprintf, Fmt.sprintf_sprintf_counter]

theorem handler_reply_no_host (o : Oracle) (r : Http.Request) (w : World)
    (hh : r.Get "host" = "") :
    handler o r w = (some { status := 400, body := "Host parameter is missing\n" }, Take w) := by
  simp [handler, hh, Http.Error, Http.StatusBadRequest]

theorem handler_reply_unreachable (o : Oracle) (r : Http.Request) (w : World)
    (hh : r.Get "host" ≠ "") (hp : (probed o r w).1 = false) :
    handler o r w = (some { status := 404, body := "Host not found\n" }, (probed o r w).2) := by
  have hp2 : (hostExists o (r.Get "host") (Take w)).1 = false := hp
  simp [handler, probed, hh, hp2, Http.Error, Http.StatusNotFound]

/-- C1: the resilient handler answers with exactly one of four outcomes: 400
when the `host` parameter is absent or empty; otherwise 404 when `hostExists`
is false; otherwise 500 when `cb.Execute` returns an error, which happens
exactly when the circuit is open or the store fails; otherwise 200 with body
`Counter: <n>` and a newline, `n` being the decimal rendering of the integer
the store returned for the increment of key `counter`. -/
theorem handler_four_outcomes (o : Oracle) (r : Http.Request) (w : World) :
    (r.Get "host" = "" →
      (handler o r w).1 = some { status := 400, body := "Host parameter is missing\n" }) ∧
    (r.Get "host" ≠ "" → (probed o r w).1 = false →
      (handler o r w).1 = some { status := 404, body := "Host not found\n" }) ∧
    (r.Get "host" ≠ "" → (probed o r w).1 = true → (guarded o r w).1.2 ≠ none →
      (handler o r w).1 = some { status := 500, body := "Could not increment counter\n" }) ∧
    (r.Get "host" ≠ "" → (probed o r w).1 = true → (guarded o r w).1.2 = none →
      ∃ n, o.incr "counter" w.incrs = .ok n ∧
        (handler o r w).1 =
          some { status := 200, body := "Counter: " ++ String.mk (Fmt.formatInt n) ++ "\n" }) ∧
    ((guarded o r w).1.2 ≠ none ↔
      ((Gobreaker.currentState cbSettings w.cb (probed o r w).2.now).1.state = .StateOpen ∨
        o.incr "counter" w.incrs = .err)) := by
  refine ⟨?_, ?_, handler_reply_error o r w, ?_, guarded_error_iff o r w⟩
  · intro hh
    rw [handler_reply_no_host o r w hh]
  · intro hh hp
    rw [handler_reply_unreachable o r w hh hp]
  · intro hh hp he
    obtain ⟨n, hn, hrep⟩ := handler_reply_ok o r w hh hp he
    refine ⟨n, hn, ?_⟩
    rw [hrep, Http.Fprintf, Fmt.sprintf_counter]
    rfl

/-- The four outcomes of C1, each met in a concrete run. -/
theorem handler_four_outcomes_witness :
    (handler Scenario.healthy Scenario.noHost (init 0)).1 =
        some { status := 400, body := "Host parameter is missing\n" } ∧
      (handler Scenario.hostDown Scenario.withHost (init 0)).1 =
        some { status := 404, body := "Host not found\n" } ∧
      (handler Scenario.storeDown Scenario.withHost (init 0)).1 =
        some { status := 500, body := "Could not increment counter\n" } ∧
      (∃ n, Scenario.healthy.incr "counter" (init 0).incrs = .ok n ∧
        (handler Scenario.healthy Scenario.withHost (init 0)).1 =
          some { status := 200, body := "Counter: " ++ String.mk (Fmt.formatInt n) ++ "\n" }) :=
  ⟨(handler_four_outcomes Scenario.healthy Scenario.noHost (init 0)).1 (by decide),
   (handler_four_outcomes Scenario.hostDown Scenario.withHost (init 0)).2.1
      (by decide) (by decide),
   (handler_four_outcomes Scenario.storeDown Scenario.withHost (init 0)).2.2.1
      (by decide) (by decide) (by decide),
   (handler_four_outcomes Scenario.healthy Scenario.withHost (init 0)).2.2.2.1
      (by decide) (by decide) (by decide)⟩

end AppResilience

namespace AppResilience

/-- C2 (as stated, refuted): on a request without `host`, the handler has
called `rateLimiter.Take` once and the limiter has given out its token by the
time it answers 400. -/
theorem handler_takes_without_host :
    Scenario.noHost.Get "host" = "" ∧
      (handler Scenario.healthy Scenario.noHost (init 0)).1 =
        some { status := 400, body := "Host parameter is missing\n" } ∧
      (handler Scenario.healthy Scenario.noHost (init 0)).2.takes = (init 0).takes + 1 ∧
      (handler Scenario.healthy Scenario.noHost (init 0)).2.rateLimiter ≠ (init 0).rateLimiter := by
  decide

/-- C2 (amended): on a request whose `host` parameter is absent or empty the
handler calls `rateLimiter.Take` exactly once, answers 400 and stops: the world
it leaves is the one `Take` left, so no `GET` is issued, `cb.Execute` is not
called, the breaker is untouched and the store is not called. -/
theorem handler_missing_host (o : Oracle) (r : Http.Request) (w : World)
    (hh : r.Get "host" = "") :
    (handler o r w).1 = some { status := 400, body := "Host parameter is missing\n" } ∧
      (handler o r w).2 = Take w ∧
      (handler o r w).2.takes = w.takes + 1 ∧
      (handler o r w).2.gets = w.gets ∧
      (handler o r w).2.executes = w.executes ∧
      (handler o r w).2.cb = w.cb ∧
      (handler o r w).2.incrs = w.incrs := by
  rw [handler_reply_no_host o r w hh]
  exact ⟨rfl, rfl, rfl, rfl, rfl, rfl, rfl⟩

/-- The amended C2 on a request with no query, store down, clock at 7. -/
theorem handler_missing_host_witness :
    Scenario.noHost.Get "host" = "" ∧
      ((handler Scenario.storeDown Scenario.noHost (init 7)).1 =
          some { status := 400, body := "Host parameter is missing\n" } ∧
        (handler Scenario.storeDown Scenario.noHost (init 7)).2 = Take (init 7) ∧
        (handler Scenario.storeDown Scenario.noHost (init 7)).2.takes = (init 7).takes + 1 ∧
        (handler Scenario.storeDown Scenario.noHost (init 7)).2.gets = (init 7).gets ∧
        (handler Scenario.storeDown Scenario.noHost (init 7)).2.executes = (init 7).executes ∧
        (handler Scenario.storeDown Scenario.noHost (init 7)).2.cb = (init 7).cb ∧
        (handler Scenario.storeDown Scenario.noHost (init 7)).2.incrs = (init 7).incrs) :=
  ⟨by decide, handler_missing_host Scenario.storeDown Scenario.noHost (init 7) (by decide)⟩

/-- C3: on a request with a non-empty `host` for which `hostExists` returns
false the handler answers 404 and makes no store call: `cb.Execute` is not
called, the store increment is not called, and the breaker (state, failure
count, cooldown) and the log of its transitions are as they were. -/
theorem handler_unreachable_host (o : Oracle) (r : Http.Request) (w : World)
    (hh : r.Get "host" ≠ "") (hp : (hostExists o (r.Get "host") (Take w)).1 = false) :
    (handler o r w).1 = some { status := 404, body := "Host not found\n" } ∧
      (handler o r w).2.executes = w.executes ∧
      (handler o r w).2.incrs = w.incrs ∧
      (handler o r w).2.cb = w.cb ∧
      (handler o r w).2.log = w.log := by
  obtain ⟨h1, h2, h3, h4, _, _⟩ := probed_frame o r w
  rw [handler_reply_unreachable o r w hh hp]
  exact ⟨rfl, h2, h3, h1, h4⟩

/-- The statement of C3 on a request whose host never answers. -/
theorem handler_unreachable_host_witness :
    Scenario.withHost.Get "host" ≠ "" ∧
      (hostExists Scenario.hostDown (Scenario.withHost.Get "host") (Take (init 0))).1 = false ∧
      ((handler Scenario.hostDown Scenario.withHost (init 0)).1 =
          some { status := 404, body := "Host not found\n" } ∧
        (handler Scenario.hostDown Scenario.withHost (init 0)).2.executes = (init 0).executes ∧
        (handler Scenario.hostDown Scenario.withHost (init 0)).2.incrs = (init 0).incrs ∧
        (handler Scenario.hostDown Scenario.withHost (init 0)).2.cb = (init 0).cb ∧
        (handler Scenario.hostDown Scenario.withHost (init 0)).2.log = (init 0).log) :=
  ⟨by decide, by decide,
    handler_unreachable_host Scenario.hostDown Scenario.withHost (init 0) (by decide) (by decide)⟩

end AppResilience

/-! ## Three failures open the breaker -/

namespace AppResilience

theorem guarded_closed_fail (o : Oracle) (r : Http.Request) (w : World) (k e : Nat)
    (hcb : w.cb = { state := .StateClosed, counts := { ConsecutiveFailures := k }, expiry := e })
    (hs : o.incr "counter" w.incrs = .err) :
    (guarded o r w).1 = (.nil, some .store) ∧
      (guarded o r w).2.incrs = w.incrs + 1 ∧
      (guarded o r w).2.cb =
        (if 3 ≤ k + 1 then
          { state := .StateOpen, counts := { ConsecutiveFailures := 0 },
            expiry := (guarded o r w).2.now + 30 * second }
         else { state := .StateClosed, counts := { ConsecutiveFailures := k + 1 }, expiry := e }) := by
  have h1 := (probed_frame o r w).1
  have h2 := (probed_frame o r w).2.2.1
  rw [hcb] at h1
  unfold guarded
  generalize (probed o r w).2 = p at h1 h2
  rw [← h2] at hs
  by_cases hk : 3 ≤ k + 1 <;>
    simp [Gobreaker.Execute, Gobreaker.currentState, h1, incrCounter, World.Incr, hs,
      Gobreaker.onFailure, cbSettings, Gobreaker.setState, hk] <;>
    exact h2

theorem guarded_open_reject (o : Oracle) (r : Http.Request) (w : World)
    (hcb : w.cb.state = .StateOpen) (ht : (probed o r w).2.now < w.cb.expiry) :
    (guarded o r w).1 = (.nil, some .ErrOpenState) ∧
      (guarded o r w).2.incrs = w.incrs ∧ (guarded o r w).2.cb = w.cb := by
  have h1 := (probed_frame o r w).1
  have h2 := (probed_frame o r w).2.2.1
  unfold guarded
  generalize (probed o r w).2 = p at h1 h2 ht
  rw [← h1] at hcb ht
  rw [← h1, ← h2]
  have hnot : ¬ (p.cb.expiry ≤ p.now) := by omega
  simp [Gobreaker.Execute, Gobreaker.currentState, hcb, hnot]

end AppResilience

namespace AppResilience

theorem serve_of_reachable (o : Oracle) (t : Nat) (r : Http.Request) (w : World)
    (h : reachable o t r w) :
    (serve o t r w).2 = (guarded o r (arrive w t)).2 ∧
      ((guarded o r (arrive w t)).1.2 ≠ none →
        (serve o t r w).1 = some { status := 500, body := "Could not increment counter\n" }) := by
  obtain ⟨hh, hp⟩ := h
  unfold serve
  rw [handler_of_probe o r _ hh hp]
  refine ⟨rfl, ?_⟩
  intro he
  have he2 : (Gobreaker.Execute cbSettings (incrCounter o)
      (hostExists o (r.Get "host") (Take (arrive w t))).2).1.2 ≠ none := he
  simp [he2, Http.Error, Http.StatusInternalServerError]

theorem serve_store_failure (o : Oracle) (t : Nat) (r : Http.Request) (w : World) (k e : Nat)
    (hcb : w.cb = { state := .StateClosed, counts := { ConsecutiveFailures := k }, expiry := e })
    (h : reachable o t r w) (hs : o.incr "counter" w.incrs = .err) :
    (serve o t r w).1 = some { status := 500, body := "Could not increment counter\n" } ∧
      (serve o t r w).2.incrs = w.incrs + 1 ∧
      (serve o t r w).2.cb =
        (if 3 ≤ k + 1 then
          { state := .StateOpen, counts := { ConsecutiveFailures := 0 },
            expiry := (serve o t r w).2.now + 30 * second }
         else { state := .StateClosed, counts := { ConsecutiveFailures := k + 1 }, expiry := e }) := by
  obtain ⟨hw, hrep⟩ := serve_of_reachable o t r w h
  obtain ⟨g1, g2, g3⟩ := guarded_closed_fail o r (arrive w t) k e hcb hs
  rw [hw]
  refine ⟨hrep ?_, g2, g3⟩
  rw [g1]
  simp

theorem serve_rejected (o : Oracle) (t : Nat) (r : Http.Request) (w : World)
    (hcb : w.cb.state = .StateOpen) (h : reachable o t r w)
    (ht : executeTime o t r w < w.cb.expiry) :
    (serve o t r w).1 = some { status := 500, body := "Could not increment counter\n" } ∧
      (serve o t r w).2.incrs = w.incrs ∧ (serve o t r w).2.cb = w.cb := by
  obtain ⟨hw, hrep⟩ := serve_of_reachable o t r w h
  obtain ⟨g1, g2, g3⟩ := guarded_open_reject o r (arrive w t) hcb ht
  rw [hw]
  refine ⟨hrep ?_, g2, g3⟩
  rw [g1]
  simp

/-- C4: from a breaker in its initial Closed state (`ReadyToTrip` at three
consecutive failures), three requests in a row that name a reachable host and
whose store increment fails are each answered 500; after the second the
breaker is still Closed and the third still calls the store; after the third
the breaker is Open; a fourth such request that reaches `cb.Execute` before the
cooldown has elapsed is answered 500 without the store increment being called. -/
theorem breaker_opens_after_three_failures (o : Oracle) (w0 : World)
    (t1 t2 t3 t4 : Nat) (r1 r2 r3 r4 : Http.Request)
    (h0 : w0.cb = Gobreaker.NewCircuitBreaker)
    (hf : ∀ k, k < 3 → o.incr "counter" (w0.incrs + k) = .err)
    (h1 : reachable o t1 r1 w0)
    (h2 : reachable o t2 r2 (serveAll o [(t1, r1)] w0))
    (h3 : reachable o t3 r3 (serveAll o [(t1, r1), (t2, r2)] w0))
    (h4 : reachable o t4 r4 (serveAll o [(t1, r1), (t2, r2), (t3, r3)] w0))
    (ht : executeTime o t4 r4 (serveAll o [(t1, r1), (t2, r2), (t3, r3)] w0) <
      (serveAll o [(t1, r1), (t2, r2), (t3, r3)] w0).cb.expiry) :
    (serve o t1 r1 w0).1 = some { status := 500, body := "Could not increment counter\n" } ∧
    (serve o t2 r2 (serveAll o [(t1, r1)] w0)).1 =
      some { status := 500, body := "Could not increment counter\n" } ∧
    (serve o t3 r3 (serveAll o [(t1, r1), (t2, r2)] w0)).1 =
      some { status := 500, body := "Could not increment counter\n" } ∧
    (serveAll o [(t1, r1), (t2, r2)] w0).cb.state = .StateClosed ∧
    (serveAll o [(t1, r1), (t2, r2), (t3, r3)] w0).incrs =
      (serveAll o [(t1, r1), (t2, r2)] w0).incrs + 1 ∧
    (serveAll o [(t1, r1), (t2, r2), (t3, r3)] w0).cb.state = .StateOpen ∧
    (serve o t4 r4 (serveAll o [(t1, r1), (t2, r2), (t3, r3)] w0)).1 =
      some { status := 500, body := "Could not increment counter\n" } ∧
    (serveAll o [(t1, r1), (t2, r2), (t3, r3), (t4, r4)] w0).incrs =
      (serveAll o [(t1, r1), (t2, r2), (t3, r3)] w0).incrs := by
  have e1 : serveAll o [(t1, r1)] w0 = (serve o t1 r1 w0).2 := rfl
  have e2 : serveAll o [(t1, r1), (t2, r2)] w0 = (serve o t2 r2 (serveAll o [(t1, r1)] w0)).2 := rfl
  have e3 : serveAll o [(t1, r1), (t2, r2), (t3, r3)] w0 =
      (serve o t3 r3 (serveAll o [(t1, r1), (t2, r2)] w0)).2 := rfl
  have e4 : serveAll o [(t1, r1), (t2, r2), (t3, r3), (t4, r4)] w0 =
      (serve o t4 r4 (serveAll o [(t1, r1), (t2, r2), (t3, r3)] w0)).2 := rfl
  obtain ⟨a1, a2, a3⟩ := serve_store_failure o t1 r1 w0 0 0 h0 h1 (by simpa using hf 0 (by omega))
  rw [← e1] at a2 a3
  simp only [zero_add, show ¬ (3 ≤ 1) by omega, if_false] at a3
  obtain ⟨b1, b2, b3⟩ := serve_store_failure o t2 r2 _ 1 0 a3 h2
    (by rw [a2]; exact hf 1 (by omega))
  rw [← e2] at b2 b3
  simp only [show ¬ (3 ≤ 1 + 1) by omega, if_false] at b3
  obtain ⟨c1, c2, c3⟩ := serve_store_failure o t3 r3 _ 2 0 b3 h3
    (by rw [b2, a2]; exact hf 2 (by omega))
  rw [← e3] at c2 c3
  simp only [show 3 ≤ 2 + 1 by omega, if_true] at c3
  have hopen : (serveAll o [(t1, r1), (t2, r2), (t3, r3)] w0).cb.state = .StateOpen := by
    rw [c3]
  obtain ⟨d1, d2, _⟩ := serve_rejected o t4 r4 _ hopen h4 ht
  rw [← e4] at d2
  refine ⟨a1, b1, c1, ?_, c2, hopen, d1, d2⟩
  rw [b3]

/-- The scenario of C4 run with the store down: the limiter admits the four
requests at 0, 10, 20 and 30 seconds, the breaker opens at 20 seconds until 50. -/
theorem breaker_opens_after_three_failures_witness :
    (init 0).cb = Gobreaker.NewCircuitBreaker ∧
    (∀ k, k < 3 → Scenario.storeDown.incr "counter" ((init 0).incrs + k) = .err) ∧
    reachable Scenario.storeDown 0 Scenario.withHost (init 0) ∧
    reachable Scenario.storeDown 0 Scenario.withHost Scenario.failedOnce ∧
    reachable Scenario.storeDown 0 Scenario.withHost Scenario.failedTwice ∧
    reachable Scenario.storeDown 0 Scenario.withHost Scenario.failedThrice ∧
    executeTime Scenario.storeDown 0 Scenario.withHost Scenario.failedThrice <
      Scenario.failedThrice.cb.expiry ∧
    ((serve Scenario.storeDown 0 Scenario.withHost (init 0)).1 =
        some { status := 500, body := "Could not increment counter\n" } ∧
      (serve Scenario.storeDown 0 Scenario.withHost Scenario.failedOnce).1 =
        some { status := 500, body := "Could not increment counter\n" } ∧
      (serve Scenario.storeDown 0 Scenario.withHost Scenario.failedTwice).1 =
        some { status := 500, body := "Could not increment counter\n" } ∧
      Scenario.failedTwice.cb.state = .StateClosed ∧
      Scenario.failedThrice.incrs = Scenario.failedTwice.incrs + 1 ∧
      Scenario.failedThrice.cb.state = .StateOpen ∧
      (serve Scenario.storeDown 0 Scenario.withHost Scenario.failedThrice).1 =
        some { status := 500, body := "Could not increment counter\n" } ∧
      Scenario.afterFourth.incrs = Scenario.failedThrice.incrs) :=
  ⟨by decide, by decide, ⟨by decide, by decide⟩, ⟨by decide, by decide⟩, ⟨by decide, by decide⟩,
    ⟨by decide, by decide⟩, by decide,
    breaker_opens_after_three_failures Scenario.storeDown (init 0) 0 0 0 0
      Scenario.withHost Scenario.withHost Scenario.withHost Scenario.withHost
      (by decide) (by decide) ⟨by decide, by decide⟩ ⟨by decide, by decide⟩
      ⟨by decide, by decide⟩ ⟨by decide, by decide⟩ (by decide)⟩

end AppResilience

/-! ## The probe and its retries -/

namespace Retryablehttp

theorem attempts_exhaust (o : Oracle) (url : String) :
    ∀ (remain : Nat) (w : World),
      (∀ k, k ≤ remain → DefaultRetryPolicy (o.roundTrip url (w.gets + k)) = true) →
      (attempts o url remain w).1 = (o.roundTrip url (w.gets + remain), true) ∧
        (attempts o url remain w).2.gets = w.gets + remain + 1 := by
  intro remain
  induction remain with
  | zero =>
    intro w h
    have h0 := h 0 (Nat.le_refl 0)
    rw [Nat.add_zero] at h0
    rw [attempts_zero, h0]
    exact ⟨rfl, rfl⟩
  | succ n ih =>
    intro w h
    have h0 := h 0 (Nat.zero_le _)
    rw [Nat.add_zero] at h0
    rw [attempts_retry o url n w h0]
    have hg : (w.get o url).2.gets = w.gets + 1 := rfl
    have hrest : ∀ k, k ≤ n →
        DefaultRetryPolicy (o.roundTrip url ((w.get o url).2.gets + k)) = true := by
      intro k hk
      rw [hg, Nat.add_assoc, Nat.add_comm 1 k]
      exact h (k + 1) (by omega)
    obtain ⟨i1, i2⟩ := ih (w.get o url).2 hrest
    rw [i1, i2, hg]
    exact ⟨by rw [Nat.add_assoc, Nat.add_comm 1 n], by omega⟩

theorem attempts_settle (o : Oracle) (url : String) :
    ∀ (remain : Nat) (w : World) (j : Nat), j ≤ remain →
      (∀ k, k < j → DefaultRetryPolicy (o.roundTrip url (w.gets + k)) = true) →
      DefaultRetryPolicy (o.roundTrip url (w.gets + j)) = false →
      (attempts o url remain w).1 = (o.roundTrip url (w.gets + j), false) ∧
        (attempts o url remain w).2.gets = w.gets + j + 1 := by
  intro remain
  induction remain with
  | zero =>
    intro w j hj _ hlast
    have hj0 : j = 0 := by omega
    subst hj0
    rw [Nat.add_zero] at hlast
    rw [attempts_stop o url 0 w hlast]
    exact ⟨rfl, rfl⟩
  | succ n ih =>
    intro w j hj hfirst hlast
    cases j with
    | zero =>
      rw [Nat.add_zero] at hlast
      rw [attempts_stop o url _ w hlast]
      exact ⟨rfl, rfl⟩
    | succ i =>
      have h0 := hfirst 0 (Nat.succ_pos i)
      rw [Nat.add_zero] at h0
      rw [attempts_retry o url n w h0]
      have hg : (w.get o url).2.gets = w.gets + 1 := rfl
      have hshift : ∀ k, (w.get o url).2.gets + k = w.gets + (k + 1) := by
        intro k
        rw [hg]
        omega
      obtain ⟨i1, i2⟩ := ih (w.get o url).2 i (by omega)
        (by intro k hk; rw [hshift]; exact hfirst (k + 1) (by omega))
        (by rw [hshift]; exact hlast)
      rw [i1, i2, hshift]
      exact ⟨rfl, by omega⟩

end Retryablehttp

namespace AppResilience

theorem hostExists_parsed (o : Oracle) (url : String) (w : World) (hp : o.parses url = true) :
    hostExists o url w =
      (match (Retryablehttp.attempts o url 3 w).1 with
        | (.response status, false) => decide (status = 200)
        | _ => false,
       (Retryablehttp.attempts o url 3 w).2) := by
  simp only [hostExists, Retryablehttp.NewRequest, hp, if_true, Retryablehttp.Client.Do, client]
  generalize Retryablehttp.attempts o url 3 w = a
  rcases a with ⟨⟨out, b⟩, w1⟩
  cases out <;> cases b <;> simp [Http.StatusOK]

end AppResilience

namespace AppResilience

/-- C5: `hostExists(url)` is true exactly when the request could be built, the
retrying client returned a response without error, and the status of that
response is 200; a URL for which no request can be built yields false with the
world unchanged, so without any `GET`.  The same holds of the baseline
`hostExists`, whose single `GET` stands in place of the retrying client. -/
theorem hostExists_true_iff (o : Oracle) (url : String) (w : World) :
    ((hostExists o url w).1 = true ↔
      ∃ req, Retryablehttp.NewRequest o "GET" url = some req ∧
        (client.Do o req w).1 = some 200) ∧
    (Retryablehttp.NewRequest o "GET" url = none →
      hostExists o url w = (false, w) ∧ (hostExists o url w).2.gets = w.gets) ∧
    ((App.hostExists o url w).1 = true ↔
      o.parses url = true ∧ o.roundTrip url w.gets = .response 200) ∧
    (o.parses url = false →
      App.hostExists o url w = (false, w) ∧ (App.hostExists o url w).2.gets = w.gets) := by
  refine ⟨?_, ?_, ?_, ?_⟩
  · unfold hostExists
    cases hreq : Retryablehttp.NewRequest o "GET" url with
    | none => simp
    | some req =>
      dsimp only
      cases hdo : (client.Do o req w).1 with
      | none => simp [hdo]
      | some status => simp [Http.StatusOK, hdo]
  · intro hnone
    have h : hostExists o url w = (false, w) := by
      unfold hostExists
      rw [hnone]
    rw [h]
    exact ⟨rfl, rfl⟩
  · unfold App.hostExists
    cases hp : o.parses url with
    | false => simp
    | true =>
      simp only [if_true, World.get, true_and]
      cases hrt : o.roundTrip url w.gets with
      | error e => simp
      | response status => simp [Http.StatusOK]
  · intro hp
    have h : App.hostExists o url w = (false, w) := by
      unfold App.hostExists
      simp [hp]
    rw [h]
    exact ⟨rfl, rfl⟩

/-- C6 (as stated, refuted): a first `GET` answered 503 is followed by a second
`GET`, and since that one is answered 200 the probe returns true. -/
theorem hostExists_retries_on_503 :
    Scenario.busyOnce.roundTrip "http://ok.example" (init 0).gets = .response 503 ∧
      (hostExists Scenario.busyOnce "http://ok.example" (init 0)).2.gets = (init 0).gets + 2 ∧
      (hostExists Scenario.busyOnce "http://ok.example" (init 0)).1 = true := by
  decide

/-- C6 (amended): when the first `GET` of `hostExists` is answered with a
status `s` other than 200, then: if `s` is not one the client retries (`s` is
not 429, not 0, and not 500 or above, 501 apart), no further `GET` is issued
and the result is false; if `s` is one the client retries (429, 0, or 500 and
above other than 501), at least one further `GET` is issued and at most three,
so between 2 and 4 `GET`s in all. -/
theorem hostExists_first_non200 (o : Oracle) (url : String) (w : World) (s : Nat)
    (hp : o.parses url = true) (hfirst : o.roundTrip url w.gets = .response s) (hs : s ≠ 200) :
    (s ≠ 429 → s ≠ 0 → ¬ (500 ≤ s ∧ s ≠ 501) →
      (hostExists o url w).1 = false ∧ (hostExists o url w).2.gets = w.gets + 1) ∧
    ((s = 429 ∨ s = 0 ∨ (500 ≤ s ∧ s ≠ 501)) →
      w.gets + 2 ≤ (hostExists o url w).2.gets ∧ (hostExists o url w).2.gets ≤ w.gets + 4) := by
  rw [hostExists_parsed o url w hp]
  constructor
  · intro h1 h2 h3
    have hpol : Retryablehttp.DefaultRetryPolicy (o.roundTrip url w.gets) = false := by
      rw [hfirst]
      simp [Retryablehttp.DefaultRetryPolicy, h1, h2]
      omega
    rw [Retryablehttp.attempts_stop o url 3 w hpol, hfirst]
    simp [hs, World.get]
  · intro h
    have hpol : Retryablehttp.DefaultRetryPolicy (o.roundTrip url w.gets) = true := by
      rw [hfirst]
      simp [Retryablehttp.DefaultRetryPolicy]
      omega
    rw [Retryablehttp.attempts_retry o url 2 w hpol]
    have hlo := (Retryablehttp.attempts_frame o url 2 (w.get o url).2).2.1
    have hhi := (Retryablehttp.attempts_frame o url 2 (w.get o url).2).2.2
    have hg : (w.get o url).2.gets = w.gets + 1 := rfl
    simp only
    omega

/-- The amended C6 on a host answering 404 (no retry), on one answering 503
first (one retry) and on one always answering 999 (three retries). -/
theorem hostExists_first_non200_witness :
    (Scenario.notFound.parses "http://ok.example" = true ∧
      Scenario.notFound.roundTrip "http://ok.example" (init 0).gets = .response 404 ∧
      (hostExists Scenario.notFound "http://ok.example" (init 0)).1 = false ∧
      (hostExists Scenario.notFound "http://ok.example" (init 0)).2.gets = (init 0).gets + 1) ∧
    (Scenario.busyOnce.parses "http://ok.example" = true ∧
      Scenario.busyOnce.roundTrip "http://ok.example" (init 0).gets = .response 503 ∧
      (init 0).gets + 2 ≤ (hostExists Scenario.busyOnce "http://ok.example" (init 0)).2.gets ∧
      (hostExists Scenario.busyOnce "http://ok.example" (init 0)).2.gets ≤ (init 0).gets + 4) ∧
    (Scenario.outOfRange.parses "http://ok.example" = true ∧
      Scenario.outOfRange.roundTrip "http://ok.example" (init 0).gets = .response 999 ∧
      (init 0).gets + 2 ≤ (hostExists Scenario.outOfRange "http://ok.example" (init 0)).2.gets ∧
      (hostExists Scenario.outOfRange "http://ok.example" (init 0)).2.gets ≤ (init 0).gets + 4) :=
  ⟨⟨by decide, by decide,
      (hostExists_first_non200 Scenario.notFound "http://ok.example" (init 0) 404
        (by decide) (by decide) (by decide)).1 (by decide) (by decide) (by decide)⟩,
   ⟨by decide, by decide,
      (hostExists_first_non200 Scenario.busyOnce "http://ok.example" (init 0) 503
        (by decide) (by decide) (by decide)).2 (by decide)⟩,
   ⟨by decide, by decide,
      (hostExists_first_non200 Scenario.outOfRange "http://ok.example" (init 0) 999
        (by decide) (by decide) (by decide)).2 (by decide)⟩⟩

end AppResilience

namespace AppResilience

/-- C7 (as stated, refuted): when every `GET` fails on an untrusted
certificate, a failure below HTTP, `hostExists` makes one attempt, not four. -/
theorem hostExists_no_retry_on_bad_certificate :
    (∀ k, Scenario.badCertificate.roundTrip "https://ok.example" k = .error .certNotTrusted) ∧
      (hostExists Scenario.badCertificate "https://ok.example" (init 0)).1 = false ∧
      (hostExists Scenario.badCertificate "https://ok.example" (init 0)).2.gets =
        (init 0).gets + 1 :=
  ⟨fun _ => rfl, by decide, by decide⟩

/-- C7 (amended): for a URL that parses, when the first attempt and each of the
three retries fails with a transport error the client treats as recoverable
(any but a redirect-limit, unsupported-scheme or untrusted-certificate
failure), `hostExists` issues exactly 4 `GET`s and returns false; and when
attempt number `j` (0 to 3) is answered 200 after `j` such failures, exactly
`j + 1` `GET`s are issued and the result is true. -/
theorem hostExists_retry_ceiling (o : Oracle) (url : String) (w : World)
    (hp : o.parses url = true) :
    ((∀ k, k ≤ 3 → o.roundTrip url (w.gets + k) = .error .other) →
      (hostExists o url w).1 = false ∧ (hostExists o url w).2.gets = w.gets + 4) ∧
    (∀ j, j ≤ 3 → (∀ k, k < j → o.roundTrip url (w.gets + k) = .error .other) →
      o.roundTrip url (w.gets + j) = .response 200 →
      (hostExists o url w).1 = true ∧ (hostExists o url w).2.gets = w.gets + j + 1) := by
  rw [hostExists_parsed o url w hp]
  constructor
  · intro h
    obtain ⟨a1, a2⟩ := Retryablehttp.attempts_exhaust o url 3 w
      (fun k hk => by rw [h k hk]; rfl)
    refine ⟨?_, a2⟩
    rw [a1, h 3 (Nat.le_refl 3)]
  · intro j hj hfail hok
    obtain ⟨a1, a2⟩ := Retryablehttp.attempts_settle o url 3 w j hj
      (fun k hk => by rw [hfail k hk]; rfl) (by rw [hok]; decide)
    refine ⟨?_, a2⟩
    rw [a1, hok]
    rfl

/-- The amended C7 on a host that is always down (4 attempts) and on one that
answers 200 on the third attempt (3 attempts). -/
theorem hostExists_retry_ceiling_witness :
    (Scenario.hostDown.parses "http://down.example" = true ∧
      (∀ k, k ≤ 3 →
        Scenario.hostDown.roundTrip "http://down.example" ((init 0).gets + k) = .error .other) ∧
      (hostExists Scenario.hostDown "http://down.example" (init 0)).1 = false ∧
      (hostExists Scenario.hostDown "http://down.example" (init 0)).2.gets = (init 0).gets + 4) ∧
    (Scenario.downTwice.parses "http://ok.example" = true ∧
      (∀ k, k < 2 →
        Scenario.downTwice.roundTrip "http://ok.example" ((init 0).gets + k) = .error .other) ∧
      Scenario.downTwice.roundTrip "http://ok.example" ((init 0).gets + 2) = .response 200 ∧
      (hostExists Scenario.downTwice "http://ok.example" (init 0)).1 = true ∧
      (hostExists Scenario.downTwice "http://ok.example" (init 0)).2.gets =
        (init 0).gets + 2 + 1) :=
  ⟨⟨by decide, by decide,
      (hostExists_retry_ceiling Scenario.hostDown "http://down.example" (init 0) (by decide)).1
        (by decide)⟩,
   ⟨by decide, by decide, by decide,
      (hostExists_retry_ceiling Scenario.downTwice "http://ok.example" (init 0) (by decide)).2 2
        (by decide) (by decide) (by decide)⟩⟩

end AppResilience

/-! ## The rate limiter as configured -/

namespace AppResilience

/-- C8 (the code at the failing input): the limiter built in `init` has
capacity 1 and a refill interval of 10 seconds, not 1 second: after an
admission at time 0, a request arriving 1 second later is held until 10
seconds, and so is one arriving 9 seconds later. -/
theorem rateLimiter_holds_for_ten_seconds :
    rateLimiter.capacity = 1 ∧ rateLimiter.interval = 10 * second ∧
      (Take (init 0)).now = 0 ∧
      (Take (arrive (Take (init 0)) (1 * second))).now = 10 * second ∧
      (Take (arrive (Take (init 0)) (9 * second))).now = 10 * second := by
  decide

end AppResilience

/-! ## Shutdown -/

namespace Main

/-- C9: whatever `server.Shutdown` returns under the 10-second deadline (nil,
`context.DeadlineExceeded`, or another error), the shutdown goroutine executes
`close(idleConnsClosed)` exactly once and does not panic, the channel ends
closed, and so the final receive of `main` returns.  On a timeout what is logged
after the shutdown notice is one line at level WARN; on a clean shutdown no
timeout line is logged. -/
theorem goroutine_closes_once (err : Option ShutdownError) :
    (goroutine err start).closes = 1 ∧
      (goroutine err start).idleConnsClosed = true ∧
      (goroutine err start).panicked = false ∧
      mainReturns (goroutine err start) = true ∧
      (err = some .DeadlineExceeded →
        (goroutine err start).log =
          [{ level := "INFO", msg := "Server is shutting down...", attrs := [] },
           { level := "WARN", msg := "HTTP server Shutdown: timeout", attrs := [] }]) ∧
      (err = none →
        (goroutine err start).log =
          [{ level := "INFO", msg := "Server is shutting down...", attrs := [] },
           { level := "INFO", msg := "Server is shut down", attrs := [] }] ∧
        ∀ l ∈ (goroutine err start).log, l.msg ≠ "HTTP server Shutdown: timeout") := by
  cases err with
  | none =>
    refine ⟨rfl, rfl, rfl, rfl, ?_, ?_⟩
    · intro h
      cases h
    · intro _
      exact ⟨rfl, by decide⟩
  | some e =>
    cases e with
    | DeadlineExceeded =>
      refine ⟨rfl, rfl, rfl, rfl, ?_, ?_⟩
      · intro _
        rfl
      · intro h
        cases h
    | other text =>
      refine ⟨rfl, rfl, rfl, rfl, ?_, ?_⟩
      · intro h
        cases h
      · intro h
        cases h

end Main

/-! ## Baseline and resilient handler -/

namespace App

theorem baseline_hostExists_incrs (o : Oracle) (url : String) (w : World) :
    (hostExists o url w).2.incrs = w.incrs := by
  unfold hostExists
  split
  · dsimp only
    split <;> rfl
  · rfl

theorem baseline_reply_of_probe (o : Oracle) (r : Http.Request) (w : World)
    (hh : r.Get "host" ≠ "") (hp : (hostExists o (r.Get "host") w).1 = true) :
    (handler o r w).1 =
      match o.incr "counter" w.incrs with
      | .err => some { status := 500, body := "Could not increment counter\n" }
      | .ok n => some (Http.Fprintf "Counter: %d\n" [.int n]) := by
  have hi := baseline_hostExists_incrs o (r.Get "host") w
  unfold handler
  simp only [hh, hp, if_true, if_false, World.Incr, hi]
  split <;> rfl

end App

namespace AppResilience

theorem handler_never_panics (o : Oracle) (r : Http.Request) (w : World) :
    (handler o r w).1 ≠ none := by
  by_cases hh : r.Get "host" = ""
  · rw [handler_reply_no_host o r w hh]
    simp
  · cases hp : (probed o r w).1 with
    | false =>
      rw [handler_reply_unreachable o r w hh hp]
      simp
    | true =>
      by_cases he : (guarded o r w).1.2 = none
      · obtain ⟨n, _, hrep⟩ := handler_reply_ok o r w hh hp he
        rw [hrep]
        simp
      · rw [handler_reply_error o r w hh hp he]
        simp

/-- C10: the baseline handler and the resilient handler write the same status
and the same body whenever `hostExists` returns the same boolean in both, the
store gives both the same outcome, and the breaker lets the call through (it
is not Open when `cb.Execute` is entered, so the wrapped increment runs and its
result comes back unchanged).  In particular using the line already formatted
as the format string of `Fprintf` writes the same reply as formatting
`Counter: %d` with the integer, and the type assertion `body.(string)` never
fails: the resilient handler always writes a reply. -/
theorem handlers_agree (o : Oracle) (r : Http.Request) (wA wR : World)
    (hprobe : (App.hostExists o (r.Get "host") wA).1 = (probed o r wR).1)
    (hstore : o.incr "counter" wA.incrs = o.incr "counter" wR.incrs)
    (hpass : (Gobreaker.currentState cbSettings wR.cb (probed o r wR).2.now).1.state ≠
      .StateOpen) :
    (App.handler o r wA).1 = (handler o r wR).1 ∧
      (∀ n : Int, Http.Fprintf (Fmt.Sprintf "Counter: %d\n" [.int n]) [] =
        Http.Fprintf "Counter: %d\n" [.int n]) ∧
      (handler o r wR).1 ≠ none := by
  refine ⟨?_, ?_, handler_never_panics o r wR⟩
  · by_cases hh : r.Get "host" = ""
    · rw [handler_reply_no_host o r wR hh]
      simp [App.handler, hh, Http.Error, Http.StatusBadRequest]
    · cases hp : (probed o r wR).1 with
      | false =>
        rw [handler_reply_unreachable o r wR hh hp]
        rw [hp] at hprobe
        simp [App.handler, hh, hprobe, Http.Error, Http.StatusNotFound]
      | true =>
        rw [hp] at hprobe
        rw [App.baseline_reply_of_probe o r wA hh hprobe, hstore]
        have herr := guarded_error_iff o r wR
        cases hs : o.incr "counter" wR.incrs with
        | err =>
          rw [handler_reply_error o r wR hh hp (herr.mpr (Or.inr hs))]
        | ok n =>
          have he : (guarded o r wR).1.2 = none := by
            by_contra hne
            rcases herr.mp hne with h | h
            · exact hpass h
            · rw [hs] at h
              cases h
          obtain ⟨m, hm, hrep⟩ := handler_reply_ok o r wR hh hp he
          rw [hs] at hm
          cases hm
          rw [hrep]
  · intro n
    rw [Http.Fprintf, Http.Fprintf, Fmt.sprintf_sprintf_counter]

/-- The statement of C10 on a healthy run of both programs. -/
theorem handlers_agree_witness :
    (App.hostExists Scenario.healthy (Scenario.withHost.Get "host") (init 0)).1 =
        (probed Scenario.healthy Scenario.withHost (init 0)).1 ∧
      Scenario.healthy.incr "counter" (init 0).incrs =
        Scenario.healthy.incr "counter" (init 0).incrs ∧
      (Gobreaker.currentState cbSettings (init 0).cb
        (probed Scenario.healthy Scenario.withHost (init 0)).2.now).1.state ≠ .StateOpen ∧
      ((App.handler Scenario.healthy Scenario.withHost (init 0)).1 =
          (handler Scenario.healthy Scenario.withHost (init 0)).1 ∧
        (∀ n : Int, Http.Fprintf (Fmt.Sprintf "Counter: %d\n" [.int n]) [] =
          Http.Fprintf "Counter: %d\n" [.int n]) ∧
        (handler Scenario.healthy Scenario.withHost (init 0)).1 ≠ none) :=
  ⟨by decide, rfl, by decide,
    handlers_agree Scenario.healthy Scenario.withHost (init 0) (init 0)
      (by decide) rfl (by decide)⟩

end AppResilience
